import Mathlib

/-!
Shallow embedding of the SSR middleware of this repository: the request
pipeline (`use`), the HTML assembler, the page-cache integration, and the
cache-clearing operation (`clearCache`), together with proofs and
refutations of the spec's testable properties.
-/

namespace Ssr

/-- JS `String.prototype.replace` with a plain-string pattern replaces only
the first occurrence of `pat` (list-of-characters level).  Replacement-pattern
escapes (`$`-sequences) are not modelled; no replacement string used by this
system contains `$`. -/
def replaceFirstL (pat rep : List Char) : List Char → List Char
  | [] => []
  | c :: cs =>
    if pat <+: (c :: cs) then rep ++ (c :: cs).drop pat.length
    else c :: replaceFirstL pat rep cs

/-- Two character strings that cannot overlap anywhere: neither is a
substring of the other, and no nonempty suffix of one is a prefix of the
other.  This holds for every pair of distinct markers of the HTML shell. -/
@[reducible] def sepFrom (m pat : List Char) : Prop :=
  (¬ m <:+: pat) ∧ (¬ pat <:+: m) ∧
  (∀ i, i < pat.length → ¬ (pat.drop i <+: m)) ∧
  (∀ i, i < m.length → ¬ (m.drop i <+: pat))


/-- String-level wrapper: JS `s.replace(pat, rep)` with a plain-string
pattern, replacing only the first occurrence. -/
def replaceFirst (s pat rep : String) : String :=
  String.mk (replaceFirstL pat.data rep.data s.data)

/-- JS `String.prototype.includes` (substring test), at list level. -/
def isSubListOf (pat : List Char) : List Char → Bool
  | [] => pat.isEmpty
  | c :: cs => pat.isPrefixOf (c :: cs) || isSubListOf pat cs

/-- JS `s.includes(pat)`. -/
def substrOf (pat s : String) : Bool := isSubListOf pat.data s.data

/-- JS `s.startsWith(pre)`. -/
def startsWithJS (s pre : String) : Bool := pre.data.isPrefixOf s.data

/-- The route-bypass test of the pipeline:
`req.path.startsWith('/api') || req.path.startsWith('/service') ||
req.path.includes('/assets')`. -/
def bypassPath (p : String) : Bool :=
  startsWithJS p "/api" || startsWithJS p "/service" || substrOf "/assets" p

/-- JS truthiness of the value produced by `cacheManager.get<string>`:
`undefined`/`null` (here `none`) and the empty string are falsy. -/
def jsTruthy : Option String → Bool
  | none => false
  | some s => !s.data.isEmpty

/-- JSON values, as passed around for `ctx.preloadState` (spec §3: an
"arbitrary serializable value"). -/
inductive Json where
  | jnull
  | jbool (b : Bool)
  | jnum (n : Int)
  | jstr (s : String)
  | jobj (fields : List (String × Json))

mutual

/-- `JSON.stringify` as used on `ctx.preloadState` (a JS builtin, external
to this repository; string escaping is not exercised by the spec's
scenarios and is not modelled). -/
def Json.stringify : Json → String
  | .jnull => "null"
  | .jbool b => if b then "true" else "false"
  | .jnum n => toString n
  | .jstr s => "\"" ++ s ++ "\""
  | .jobj fs => "\x7b" ++ Json.stringifyFields fs ++ "\x7d"

/-- Comma-separated `"key":value` members of a JSON object. -/
def Json.stringifyFields : List (String × Json) → String
  | [] => ""
  | [(k, v)] => "\"" ++ k ++ "\":" ++ Json.stringify v
  | (k, v) :: rest => "\"" ++ k ++ "\":" ++ Json.stringify v ++ "," ++ Json.stringifyFields rest

end

/-- The `ctx` object of the render result; only `preloadState` is read. -/
structure RenderCtx where
  preloadState : Json

/-- The object resolved by the external render entry point:
`{ html, ctx, headTags, htmlAttrs, bodyAttrs, preloadLinks }`. -/
structure RenderResult where
  html : String
  ctx : RenderCtx
  headTags : String
  htmlAttrs : String
  bodyAttrs : String
  preloadLinks : String

/-- The HTML assembler (the chained `.replace` calls of the success path):
each of the six fixed markers is substituted once, in source order, using
JS first-occurrence `replace`. -/
def assembleHtml (template : String) (r : RenderResult) : String :=
  let preloadStateScript :=
    "<script>window.__PRELOAD_STATE__ = " ++ Json.stringify r.ctx.preloadState ++ "</script>"
  replaceFirst (replaceFirst (replaceFirst (replaceFirst (replaceFirst (replaceFirst template
    "<!--preload-links-->" r.preloadLinks)
    "<html>" ("<html " ++ r.htmlAttrs ++ ">"))
    "<body>" ("<body " ++ r.bodyAttrs ++ ">"))
    "</head>" (r.headTags ++ "</head>"))
    "<!--ssr-outlet-->" r.html)
    "<!--preload-state-->" preloadStateScript

/-- Outcomes of the pipeline's control flow towards its caller: a normal
completion after `res.end`, delegation via `next()`, error delegation via
`next(e)`, or an uncaught rejection of the `use` promise itself. -/
inductive Outcome where
  | completed
  | next
  | nextErr
  | rejected
deriving DecidableEq

/-- The per-request interaction environment: the outcome of each external,
fallible call the middleware makes, in the order the source awaits them.
`Except.error` marks a rejection of that call.  `templateLoad` covers the
dev branch's lazy dev-server construction, shell read and HTML transform
(respectively the prod branch's shell read); `renderModuleLoad` covers
`ssrLoadModule` (dev) respectively `require` of the compiled entry (prod).
The render entry point is a black box, so its result is supplied by the
environment. -/
structure ReqEnv where
  isProd : Bool
  originalUrl : String
  path : String
  cacheGet : Except Unit (Option String)
  manifestLoad : Except Unit Unit
  templateLoad : Except Unit String
  renderModuleLoad : Except Unit Unit
  prefetch : Except Unit Unit
  renderResult : Except Unit RenderResult
  cacheSet : Except Unit Unit

/-- Observable effects of one `use` invocation: response sends
(status, content type, body) in order, the control-flow outcome, and the
cache/prefetch/render interactions. -/
structure Trace where
  sends : List (Nat × String × String)
  outcome : Outcome
  cacheGetCalls : Nat
  cacheSetCalls : List (String × String × Nat)
  prefetchCalls : Nat
  renderCalls : Nat
deriving DecidableEq

/-- The inner `try` of the pipeline: prefetch, render, assemble, respond,
production-only cache write.  Its `catch` is the CSR degradation: any
rejection inside it (prefetch, render, or the cache write) is caught and a
degraded 200 shell is attempted.  If the cache write rejects, the response
has already been sent, so the catch's second `res.set` raises and the outer
`catch` delegates the error via `next(e)`. -/
def innerTry (env : ReqEnv) (cacheKey : String) (gets : Nat) (template : String) : Trace :=
  match env.prefetch with
  | .error _ =>
    { sends := [(200, "text/html", replaceFirst template "<!--ssr-outlet-->" "")],
      outcome := .completed, cacheGetCalls := gets, cacheSetCalls := [],
      prefetchCalls := 1, renderCalls := 0 }
  | .ok _ =>
    match env.renderResult with
    | .error _ =>
      { sends := [(200, "text/html", replaceFirst template "<!--ssr-outlet-->" "")],
        outcome := .completed, cacheGetCalls := gets, cacheSetCalls := [],
        prefetchCalls := 1, renderCalls := 1 }
    | .ok r =>
      let html := assembleHtml template r
      if env.isProd then
        match env.cacheSet with
        | .ok _ =>
          { sends := [(200, "text/html", html)], outcome := .completed,
            cacheGetCalls := gets,
            cacheSetCalls := [(cacheKey, html, 60 * 60 * 24 * 1000)],
            prefetchCalls := 1, renderCalls := 1 }
        | .error _ =>
          { sends := [(200, "text/html", html)], outcome := .nextErr,
            cacheGetCalls := gets,
            cacheSetCalls := [(cacheKey, html, 60 * 60 * 24 * 1000)],
            prefetchCalls := 1, renderCalls := 1 }
      else
        { sends := [(200, "text/html", html)], outcome := .completed,
          cacheGetCalls := gets, cacheSetCalls := [],
          prefetchCalls := 1, renderCalls := 1 }

/-- The outer `try` of the pipeline.  The manifest `require` stands first in
the source, before the dev/prod branch, so it is attempted in both modes;
a rejection of it, of the template resolution or of the render-module load
reaches the outer `catch`, which delegates via `next(e)`. -/
def tryBlock (env : ReqEnv) (cacheKey : String) (gets : Nat) : Trace :=
  match env.manifestLoad with
  | .error _ =>
    { sends := [], outcome := .nextErr, cacheGetCalls := gets,
      cacheSetCalls := [], prefetchCalls := 0, renderCalls := 0 }
  | .ok _ =>
    match env.templateLoad with
    | .error _ =>
      { sends := [], outcome := .nextErr, cacheGetCalls := gets,
        cacheSetCalls := [], prefetchCalls := 0, renderCalls := 0 }
    | .ok template =>
      match env.renderModuleLoad with
      | .error _ =>
        { sends := [], outcome := .nextErr, cacheGetCalls := gets,
          cacheSetCalls := [], prefetchCalls := 0, renderCalls := 0 }
      | .ok _ => innerTry env cacheKey gets template

/-- The pipeline after the production cache lookup: the route-bypass check,
then the outer `try`. -/
def afterCache (env : ReqEnv) (cacheKey : String) (gets : Nat) : Trace :=
  if bypassPath env.path then
    { sends := [], outcome := .next, cacheGetCalls := gets,
      cacheSetCalls := [], prefetchCalls := 0, renderCalls := 0 }
  else
    tryBlock env cacheKey gets

/-- `SsrMiddleware.use`: the full request pipeline.  In production the cache
lookup is awaited first, outside any `try`, so its rejection escapes the
handler; a truthy (non-empty) hit is served verbatim with status 200. -/
def use (env : ReqEnv) : Trace :=
  let cacheKey := "ssr:" ++ env.originalUrl
  if env.isProd then
    match env.cacheGet with
    | .error _ =>
      { sends := [], outcome := .rejected, cacheGetCalls := 1,
        cacheSetCalls := [], prefetchCalls := 0, renderCalls := 0 }
    | .ok cached =>
      if jsTruthy cached then
        { sends := [(200, "text/html", cached.getD "")], outcome := .completed,
          cacheGetCalls := 1, cacheSetCalls := [], prefetchCalls := 0,
          renderCalls := 0 }
      else
        afterCache env cacheKey 1
  else
    afterCache env cacheKey 0

/-- Observable result of `clearCache` on a given enumeration of store keys:
the value the returned promise resolves with (the TS signature is
`Promise<void>`), the keys deleted, and the console output. -/
structure ClearOutcome where
  retVal : Unit
  removedKeys : List String
  log : List String
deriving DecidableEq

/-- `SsrMiddleware.clearCache`, success path: enumerate the store's keys,
filter to the `ssr:` namespace, delete those, log the count; the promise
resolves with no value. -/
def clearCache (keys : List String) : ClearOutcome :=
  let ssrKeys := keys.filter (fun k => startsWithJS k "ssr:")
  { retVal := (),
    removedKeys := ssrKeys,
    log := if ssrKeys.length > 0 then
        ["SSR cache cleared: " ++ toString ssrKeys.length ++ " keys removed"]
      else ["No SSR cache to clear"] }

/-- The keys remaining in the store after `clearCache`. -/
def remainingKeys (keys : List String) : List String :=
  keys.filter (fun k => !startsWithJS k "ssr:")

/-- `clearCache` with its fallibility: a rejection of the key enumeration or
of any individual delete is logged and re-thrown to the caller. -/
def clearCacheE (keysR : Except Unit (List String))
    (delR : String → Except Unit Unit) : Except Unit ClearOutcome :=
  match keysR with
  | .error _ => .error ()
  | .ok keys =>
    let ssrKeys := keys.filter (fun k => startsWithJS k "ssr:")
    if ssrKeys.all (fun k => (delR k).isOk) then .ok (clearCache keys)
    else .error ()

/-- A minimal template containing the app outlet, used by several request
scenarios. -/
def tmplBasic : String := "<body><!--ssr-outlet--></body>"

/-- A render result with trivial metadata, for scenarios where only control
flow matters. -/
def rrBasic : RenderResult :=
  { html := "<div>ok</div>", ctx := { preloadState := Json.jnull },
    headTags := "", htmlAttrs := "", bodyAttrs := "", preloadLinks := "" }

/-- Scenario C1: a production request whose render entry point rejects. -/
def envC1 : ReqEnv :=
  { isProd := true, originalUrl := "/a", path := "/a", cacheGet := .ok none,
    manifestLoad := .ok (), templateLoad := .ok tmplBasic,
    renderModuleLoad := .ok (), prefetch := .ok (),
    renderResult := .error (), cacheSet := .ok () }

/-- Scenario C2: a production request to a bypass path (`/api/...`) with an
empty cache. -/
def envC2 : ReqEnv :=
  { isProd := true, originalUrl := "/api/x", path := "/api/x",
    cacheGet := .ok none, manifestLoad := .ok (),
    templateLoad := .ok tmplBasic, renderModuleLoad := .ok (),
    prefetch := .ok (), renderResult := .ok rrBasic, cacheSet := .ok () }

/-- Scenario C2, variant: the same bypass-path request when the store holds
a (non-empty) entry under `ssr:/api/x`. -/
def envC2hit : ReqEnv := { envC2 with cacheGet := .ok (some "cached-page") }

/-- Scenario C3: a production request whose cache lookup rejects; all later
steps would succeed if reached. -/
def envC3 : ReqEnv :=
  { isProd := true, originalUrl := "/c", path := "/c",
    cacheGet := .error (), manifestLoad := .ok (),
    templateLoad := .ok tmplBasic, renderModuleLoad := .ok (),
    prefetch := .ok (), renderResult := .ok rrBasic, cacheSet := .ok () }

/-- Scenario C4: a development-mode request with no manifest file on disk
(the `require` of `<buildOutput>/client/.vite/manifest.json` throws); every
other step would succeed. -/
def envC4 : ReqEnv :=
  { isProd := false, originalUrl := "/d", path := "/d", cacheGet := .ok none,
    manifestLoad := .error (), templateLoad := .ok tmplBasic,
    renderModuleLoad := .ok (), prefetch := .ok (),
    renderResult := .ok rrBasic, cacheSet := .ok () }

/-- Scenario C5: a development-mode request whose `getPrefetchData` call
rejects; the render entry point itself would succeed. -/
def envC5 : ReqEnv :=
  { isProd := false, originalUrl := "/e", path := "/e", cacheGet := .ok none,
    manifestLoad := .ok (), templateLoad := .ok tmplBasic,
    renderModuleLoad := .ok (), prefetch := .error (),
    renderResult := .ok rrBasic, cacheSet := .ok () }

/-- Scenario C6: a production request for which the store holds an entry
whose value is the empty string. -/
def envC6 : ReqEnv :=
  { isProd := true, originalUrl := "/f", path := "/f",
    cacheGet := .ok (some ""), manifestLoad := .ok (),
    templateLoad := .ok tmplBasic, renderModuleLoad := .ok (),
    prefetch := .ok (), renderResult := .ok rrBasic, cacheSet := .ok () }

/-- Scenario C6, variant: the cached value is a non-empty page. -/
def envC6hit : ReqEnv := { envC6 with cacheGet := .ok (some "<p>cached</p>") }

/-- The template of the spec's concrete assembly scenario (C8). -/
def tmpl8 : String :=
  "<html><head></head><body><!--ssr-outlet--><!--preload-state--></body></html>"

/-- The render result of the spec's concrete assembly scenario (C8). -/
def rr8 : RenderResult :=
  { html := "<div>A</div>", ctx := { preloadState := .jobj [("x", .jnum 1)] },
    headTags := "", htmlAttrs := "", bodyAttrs := "", preloadLinks := "" }

/-- Scenario C7: a production request that misses the cache and renders
successfully. -/
def envC7 : ReqEnv :=
  { isProd := true, originalUrl := "/g?q=1", path := "/g",
    cacheGet := .ok none, manifestLoad := .ok (), templateLoad := .ok tmpl8,
    renderModuleLoad := .ok (), prefetch := .ok (),
    renderResult := .ok rr8, cacheSet := .ok () }

/-- A template with two outlet occurrences and every other marker, for the
CSR-degradation scenario (C10). -/
def tmpl10 : String :=
  "<html><head></head><body><!--preload-links--><!--ssr-outlet--><p><!--ssr-outlet--></p><!--preload-state--></body></html>"

/-- Scenario C10: a production request whose render rejects, with template
`tmpl10`. -/
def envC10 : ReqEnv :=
  { isProd := true, originalUrl := "/j", path := "/j", cacheGet := .ok none,
    manifestLoad := .ok (), templateLoad := .ok tmpl10,
    renderModuleLoad := .ok (), prefetch := .ok (),
    renderResult := .error (), cacheSet := .ok () }

/-- The store contents of the spec's cache-clear scenario (C9). -/
def keysC9 : List String := ["ssr:/a", "ssr:/b", "other:/c"]

/-- If `m` occurs in `pat ++ r` and `m` cannot overlap `pat`, then `m`
occurs wholly inside `r`. -/
lemma infixOfRight (m pat s u r : List Char)
    (hsep : sepFrom m pat)
    (h : s ++ m ++ u = pat ++ r) : m <:+: r := by
  rw [List.append_assoc] at h
  rcases List.append_eq_append_iff.mp h with ⟨a', hpa, hmu⟩ | ⟨c', hs, hr⟩
  · rcases List.append_eq_append_iff.mp hmu with ⟨x, hax, hu⟩ | ⟨y, hm, hr2⟩
    · exact absurd ⟨s, x, by rw [hpa, hax, List.append_assoc]⟩ hsep.1
    · rcases eq_or_ne a' [] with rfl | hne
      · refine ⟨[], u, ?_⟩
        simp only [List.nil_append] at hm ⊢
        rw [hm, hr2]
      · have hd : pat.drop s.length = a' := by rw [hpa, List.drop_left]
        have hlen : s.length < pat.length := by
          rw [hpa, List.length_append]
          have := List.length_pos.mpr hne
          omega
        have hpref : pat.drop s.length <+: m := by
          rw [hd]; exact ⟨y, hm.symm⟩
        exact absurd hpref (hsep.2.2.1 s.length hlen)
  · exact ⟨c', u, by rw [hr, List.append_assoc]⟩

/-- `replaceFirstL` copies a block `v` verbatim when no tail position of `v`
starts an occurrence of `pat`. -/
lemma replaceFirstL_skip (pat : List Char) :
    ∀ v u, (∀ i, i < v.length → ¬ pat <+: (v.drop i ++ u)) →
      replaceFirstL pat [] (v ++ u) = v ++ replaceFirstL pat [] u := by
  intro v
  induction v with
  | nil => intro u _; rfl
  | cons d v' ih =>
    intro u hv
    have h0 : ¬ pat <+: (d :: (v' ++ u)) := by
      have h := hv 0 (by simp)
      simpa using h
    have hrec := ih u (fun i hi => by
      have h := hv (i + 1) (by simpa using Nat.succ_lt_succ hi)
      simpa using h)
    calc replaceFirstL pat [] ((d :: v') ++ u)
        = replaceFirstL pat [] (d :: (v' ++ u)) := by simp
      _ = d :: replaceFirstL pat [] (v' ++ u) := by
          simp only [replaceFirstL]
          rw [if_neg h0]
      _ = d :: (v' ++ replaceFirstL pat [] u) := by rw [hrec]
      _ = (d :: v') ++ replaceFirstL pat [] u := rfl

/-- Removing the first occurrence of `pat` preserves every occurrence of a
marker `m` that cannot overlap `pat`. -/
lemma replaceFirstL_keeps (m pat : List Char) (hsep : sepFrom m pat) :
    ∀ t, m <:+: t → m <:+: replaceFirstL pat [] t := by
  intro t
  induction t with
  | nil => intro h; exact h
  | cons c cs ih =>
    intro h
    by_cases hp : pat <+: (c :: cs)
    · obtain ⟨r, hr⟩ := hp
      obtain ⟨s, u, hsu⟩ := h
      have hres : replaceFirstL pat [] (c :: cs) = r := by
        simp only [replaceFirstL]
        rw [if_pos ⟨r, hr⟩, ← hr, List.drop_left, List.nil_append]
      rw [hres]
      exact infixOfRight m pat s u r hsep (by rw [hsu, ← hr])
    · simp only [replaceFirstL]
      rw [if_neg hp]
      obtain ⟨s, u, hsu⟩ := h
      cases s with
      | cons d s' =>
        have hcs : cs = s' ++ m ++ u := by
          rw [List.cons_append, List.cons_append] at hsu
          exact (List.cons.injEq _ _ _ _ ▸ hsu).2.symm
        exact List.infix_cons (ih ⟨s', u, hcs.symm⟩)
      | nil =>
        cases m with
        | nil => exact ⟨[], _, rfl⟩
        | cons e m2 =>
          rw [List.nil_append, List.cons_append] at hsu
          have he : e = c := (List.cons.injEq _ _ _ _ ▸ hsu).1
          have hm2u : m2 ++ u = cs := (List.cons.injEq _ _ _ _ ▸ hsu).2
          subst he
          have hv : ∀ i, i < m2.length → ¬ pat <+: (m2.drop i ++ u) := by
            intro i hi hpre
            obtain ⟨w, hw⟩ := hpre
            rcases List.append_eq_append_iff.mp hw with ⟨x, hx1, _⟩ | ⟨y, hy1, _⟩
            · have hinf : pat <:+: (e :: m2) := by
                have h1 : pat <:+: m2.drop i :=
                  List.IsPrefix.isInfix ⟨x, hx1.symm⟩
                have h2 : m2.drop i <:+: m2 :=
                  List.IsSuffix.isInfix (List.drop_suffix i m2)
                exact List.infix_cons (h1.trans h2)
              exact absurd hinf hsep.2.1
            · have hdp : (e :: m2).drop (i + 1) <+: pat := by
                rw [List.drop_succ_cons]
                exact ⟨y, hy1.symm⟩
              exact absurd hdp (hsep.2.2.2 (i + 1) (by simpa using Nat.succ_lt_succ hi))
          have hskip := replaceFirstL_skip pat m2 u hv
          rw [← hm2u, hskip]
          exact ⟨[], replaceFirstL pat [] u, by simp⟩

/-- `replaceFirstL` removes exactly the leftmost occurrence of `pat`: the
input splits as `a ++ pat ++ b`, the output is `a ++ b`, and no occurrence
of `pat` starts earlier than `a.length`. -/
lemma replaceFirstL_first_split (pat : List Char) (hpne : pat ≠ []) :
    ∀ t, pat <:+: t →
      ∃ a b, t = a ++ pat ++ b ∧ replaceFirstL pat [] t = a ++ b ∧
        ∀ a' b', t = a' ++ pat ++ b' → a.length ≤ a'.length := by
  intro t
  induction t with
  | nil =>
    intro h
    obtain ⟨s, u, hsu⟩ := h
    have : pat = [] := by
      have h1 := List.append_eq_nil.mp hsu
      have h2 := List.append_eq_nil.mp h1.1
      exact h2.2
    exact absurd this hpne
  | cons c cs ih =>
    intro h
    by_cases hp : pat <+: (c :: cs)
    · obtain ⟨r, hr⟩ := hp
      refine ⟨[], r, by rw [List.nil_append, hr], ?_, ?_⟩
      · simp only [replaceFirstL]
        rw [if_pos ⟨r, hr⟩, ← hr, List.drop_left]
      · intro a' b' _; simp
    · obtain ⟨s, u, hsu⟩ := h
      cases s with
      | nil =>
        exact absurd ⟨u, by simpa using hsu⟩ hp
      | cons d s' =>
        rw [List.cons_append, List.cons_append] at hsu
        have hd : d = c := (List.cons.injEq _ _ _ _ ▸ hsu).1
        have hcs : s' ++ pat ++ u = cs := (List.cons.injEq _ _ _ _ ▸ hsu).2
        subst hd
        obtain ⟨a, b, h1, h2, hmin⟩ := ih ⟨s', u, by rw [hcs]⟩
        refine ⟨d :: a, b, by rw [List.cons_append, List.cons_append, ← h1], ?_, ?_⟩
        · simp only [replaceFirstL]
          rw [if_neg hp, h2, List.cons_append]
        · intro a' b' he
          cases a' with
          | nil =>
            rw [List.nil_append] at he
            exact absurd ⟨b', he.symm⟩ hp
          | cons d' a'' =>
            rw [List.cons_append, List.cons_append] at he
            have : cs = a'' ++ pat ++ b' := (List.cons.injEq _ _ _ _ ▸ he).2
            have hle := hmin a'' b' this
            simpa using Nat.succ_le_succ hle

/-- When `pat` does not occur at all, `replaceFirstL` is the identity. -/
lemma replaceFirstL_id_of_absent (pat : List Char) :
    ∀ t, ¬ pat <:+: t → replaceFirstL pat [] t = t := by
  intro t
  induction t with
  | nil => intro _; rfl
  | cons c cs ih =>
    intro h
    have hp : ¬ pat <+: (c :: cs) := fun hp => h (List.IsPrefix.isInfix hp)
    have hcs : ¬ pat <:+: cs := fun hcs => h (List.infix_cons hcs)
    simp only [replaceFirstL]
    rw [if_neg hp, ih hcs]

/-- Full trace of a request that reaches the render call and whose render
rejects: a 200 `text/html` response whose body is the template with the
first app-outlet marker blanked, no cache write, and in production exactly
the one initial cache read. -/
lemma use_render_reject_trace (env : ReqEnv) (t : String)
    (hget : env.isProd = true → ∃ c, env.cacheGet = Except.ok c ∧ jsTruthy c = false)
    (hbp : bypassPath env.path = false)
    (hman : env.manifestLoad = Except.ok ())
    (htpl : env.templateLoad = Except.ok t)
    (hmod : env.renderModuleLoad = Except.ok ())
    (hpre : env.prefetch = Except.ok ())
    (hren : env.renderResult = Except.error ()) :
    use env =
      { sends := [(200, "text/html", replaceFirst t "<!--ssr-outlet-->" "")],
        outcome := Outcome.completed,
        cacheGetCalls := if env.isProd then 1 else 0,
        cacheSetCalls := [], prefetchCalls := 1, renderCalls := 1 } := by
  cases hb : env.isProd with
  | false => simp [use, afterCache, tryBlock, innerTry, hb, hbp, hman, htpl, hmod, hpre, hren]
  | true =>
    obtain ⟨c, hc, htc⟩ := hget hb
    simp [use, afterCache, tryBlock, innerTry, hb, hc, htc, hbp, hman, htpl, hmod, hpre, hren]

/-- C1: for every request in which the render entry point rejects, the
response has status 200 and its body is the template with the
`<!--ssr-outlet-->` marker blanked, and no cache entry is written. -/
theorem c1_render_reject_degrades_to_csr (env : ReqEnv) (t : String)
    (hget : env.isProd = true → ∃ c, env.cacheGet = Except.ok c ∧ jsTruthy c = false)
    (hbp : bypassPath env.path = false)
    (hman : env.manifestLoad = Except.ok ())
    (htpl : env.templateLoad = Except.ok t)
    (hmod : env.renderModuleLoad = Except.ok ())
    (hpre : env.prefetch = Except.ok ())
    (hren : env.renderResult = Except.error ()) :
    (use env).sends = [(200, "text/html", replaceFirst t "<!--ssr-outlet-->" "")] ∧
    (use env).outcome = Outcome.completed ∧
    (use env).cacheSetCalls = [] := by
  rw [use_render_reject_trace env t hget hbp hman htpl hmod hpre hren]
  exact ⟨rfl, rfl, rfl⟩

/-- C1 witness: the production scenario `envC1` satisfies the hypotheses and
the degraded 200 response is produced with no cache write. -/
theorem c1_witness :
    bypassPath "/a" = false ∧ jsTruthy none = false ∧
    ((use envC1).sends =
        [(200, "text/html", replaceFirst tmplBasic "<!--ssr-outlet-->" "")] ∧
      (use envC1).outcome = Outcome.completed ∧
      (use envC1).cacheSetCalls = []) :=
  ⟨by decide, rfl,
    c1_render_reject_degrades_to_csr envC1 tmplBasic
      (fun _ => ⟨none, rfl, rfl⟩) (by decide) rfl rfl rfl rfl rfl⟩

/-- C2 counterexample: a production request to `/api/x` does incur a cache
read (the lookup precedes the bypass check), and when the store holds a
non-empty entry under `ssr:/api/x` the cached page is served instead of
control passing to the next handler — refuting "no cache read … in every
mode, including production" and the unconditional delegation. -/
theorem c2_counterexample :
    (use envC2).cacheGetCalls = 1 ∧
    (use envC2hit).outcome = Outcome.completed ∧
    (use envC2hit).sends = [(200, "text/html", "cached-page")] ∧
    (use envC2hit).renderCalls = 0 := by
  refine ⟨rfl, ?_, ?_, rfl⟩ <;> rfl

/-- C2 amended: for bypass paths the pipeline performs no cache write, no
prefetch and no render call and (in development, or in production when the
preceding lookup misses) passes control to the next handler; the production
lookup itself still happens, so the number of cache reads is 1 in
production and 0 in development. -/
theorem c2_bypass_amended (env : ReqEnv)
    (hbp : bypassPath env.path = true)
    (hget : env.isProd = true → ∃ c, env.cacheGet = Except.ok c ∧ jsTruthy c = false) :
    (use env).outcome = Outcome.next ∧
    (use env).sends = [] ∧
    (use env).cacheGetCalls = (if env.isProd then 1 else 0) ∧
    (use env).cacheSetCalls = [] ∧
    (use env).renderCalls = 0 ∧
    (use env).prefetchCalls = 0 := by
  cases hb : env.isProd with
  | false => simp [use, afterCache, hb, hbp]
  | true =>
    obtain ⟨c, hc, htc⟩ := hget hb
    simp [use, afterCache, hb, hc, htc, hbp]

/-- C2 witness: the bypass scenario `envC2` satisfies the hypotheses; the
request is delegated with one (production) cache read and no write, render
or prefetch. -/
theorem c2_witness :
    bypassPath "/api/x" = true ∧ jsTruthy none = false ∧
    ((use envC2).outcome = Outcome.next ∧
      (use envC2).sends = [] ∧
      (use envC2).cacheGetCalls = (if envC2.isProd then 1 else 0) ∧
      (use envC2).cacheSetCalls = [] ∧
      (use envC2).renderCalls = 0 ∧
      (use envC2).prefetchCalls = 0) :=
  ⟨by decide, rfl,
    c2_bypass_amended envC2 (by decide) (fun _ => ⟨none, rfl, rfl⟩)⟩

/-- C3 counterexample: when the production cache lookup rejects, the request
neither falls through to normal processing nor responds — the `await` stands
outside every `try`, so the handler's promise itself rejects: no send, no
render, no delegation.  This refutes "treated like a cache miss … never
producing an unhandled error". -/
theorem c3_counterexample :
    (use envC3).outcome = Outcome.rejected ∧
    (use envC3).sends = [] ∧
    (use envC3).renderCalls = 0 ∧
    (use envC3).outcome ≠ Outcome.next ∧
    (use envC3).outcome ≠ Outcome.completed := by
  refine ⟨rfl, rfl, rfl, ?_, ?_⟩ <;> decide

/-- C3 amended: a rejection of the production cache lookup is fatal to the
request: the handler's promise rejects before any response, delegation,
prefetch or render. -/
theorem c3_lookup_failure_fatal_amended (env : ReqEnv)
    (hprod : env.isProd = true)
    (hget : env.cacheGet = Except.error ()) :
    use env =
      { sends := [], outcome := Outcome.rejected, cacheGetCalls := 1,
        cacheSetCalls := [], prefetchCalls := 0, renderCalls := 0 } := by
  simp [use, hprod, hget]

/-- C3 witness: scenario `envC3` satisfies the hypotheses and the whole
trace is the bare rejection. -/
theorem c3_witness :
    envC3.isProd = true ∧ envC3.cacheGet = Except.error () ∧
    use envC3 =
      { sends := [], outcome := Outcome.rejected, cacheGetCalls := 1,
        cacheSetCalls := [], prefetchCalls := 0, renderCalls := 0 } :=
  ⟨rfl, rfl, c3_lookup_failure_fatal_amended envC3 rfl rfl⟩

/-- C4 counterexample: in development mode with no manifest file, the
request does not reach the dev render path: the unconditional `require` of
the manifest (it stands before the dev/prod branch) throws and the outer
catch delegates the error — refuting "a request in development mode
succeeds … even when no manifest file exists". -/
theorem c4_counterexample :
    (use envC4).outcome = Outcome.nextErr ∧
    (use envC4).renderCalls = 0 ∧
    (use envC4).prefetchCalls = 0 ∧
    (use envC4).sends = [] := by
  exact ⟨rfl, rfl, rfl, rfl⟩

/-- C4 amended: the manifest is loaded unconditionally in both modes, before
the mode branch; in development a missing manifest file makes the request
fail with a pipeline-level error delegated to the next handler (no render,
no response). -/
theorem c4_manifest_required_in_dev_amended (env : ReqEnv)
    (hdev : env.isProd = false)
    (hbp : bypassPath env.path = false)
    (hman : env.manifestLoad = Except.error ()) :
    (use env).outcome = Outcome.nextErr ∧
    (use env).renderCalls = 0 ∧
    (use env).prefetchCalls = 0 ∧
    (use env).sends = [] := by
  simp [use, afterCache, tryBlock, hdev, hbp, hman]

/-- C4 witness: scenario `envC4` satisfies the hypotheses and the request is
delegated as an error. -/
theorem c4_witness :
    envC4.isProd = false ∧ bypassPath "/d" = false ∧
    envC4.manifestLoad = Except.error () ∧
    ((use envC4).outcome = Outcome.nextErr ∧
      (use envC4).renderCalls = 0 ∧
      (use envC4).prefetchCalls = 0 ∧
      (use envC4).sends = []) :=
  ⟨rfl, by decide, rfl,
    c4_manifest_required_in_dev_amended envC4 rfl (by decide) rfl⟩

/-- C5 counterexample: a rejection of `getPrefetchData` does NOT delegate a
pipeline-level error — it is caught by the inner (render) catch and degrades
to the 200 CSR shell, because the prefetch call stands inside the same `try`
as the render invocation. -/
theorem c5_counterexample :
    (use envC5).outcome = Outcome.completed ∧
    (use envC5).sends = [(200, "text/html", "<body></body>")] ∧
    (use envC5).outcome ≠ Outcome.nextErr ∧
    (use envC5).prefetchCalls = 1 ∧
    (use envC5).renderCalls = 0 := by
  refine ⟨rfl, ?_, by decide, rfl, rfl⟩
  rfl

/-- C5 amended: failures of template load, module resolution or manifest
load delegate to the next handler, but a rejection of the Prefetch
Collaborator's `getPrefetchData` call is caught together with render
failures: it produces the 200 degraded CSR response (no render call, no
cache write), not a pipeline-level error. -/
theorem c5_prefetch_failure_degrades_amended (env : ReqEnv) (t : String)
    (hget : env.isProd = true → ∃ c, env.cacheGet = Except.ok c ∧ jsTruthy c = false)
    (hbp : bypassPath env.path = false)
    (hman : env.manifestLoad = Except.ok ())
    (htpl : env.templateLoad = Except.ok t)
    (hmod : env.renderModuleLoad = Except.ok ())
    (hpre : env.prefetch = Except.error ()) :
    (use env).sends = [(200, "text/html", replaceFirst t "<!--ssr-outlet-->" "")] ∧
    (use env).outcome = Outcome.completed ∧
    (use env).cacheSetCalls = [] ∧
    (use env).renderCalls = 0 := by
  cases hb : env.isProd with
  | false => simp [use, afterCache, tryBlock, innerTry, hb, hbp, hman, htpl, hmod, hpre]
  | true =>
    obtain ⟨c, hc, htc⟩ := hget hb
    simp [use, afterCache, tryBlock, innerTry, hb, hc, htc, hbp, hman, htpl, hmod, hpre]

/-- C5 witness: scenario `envC5` satisfies the hypotheses; the prefetch
rejection yields the degraded 200 shell. -/
theorem c5_witness :
    bypassPath "/e" = false ∧ envC5.prefetch = Except.error () ∧
    ((use envC5).sends =
        [(200, "text/html", replaceFirst tmplBasic "<!--ssr-outlet-->" "")] ∧
      (use envC5).outcome = Outcome.completed ∧
      (use envC5).cacheSetCalls = [] ∧
      (use envC5).renderCalls = 0) :=
  ⟨by decide, rfl,
    c5_prefetch_failure_degrades_amended envC5 tmplBasic
      (fun h => absurd h (by decide)) (by decide) rfl rfl rfl rfl⟩

/-- C6 counterexample: a production request for which the store holds an
entry whose value is the empty string is NOT served from cache: the
truthiness test `if (cachedPage)` treats `""` as a miss, so the pipeline
falls through, prefetches and renders — refuting the claim for "every
request … for which a cache entry exists". -/
theorem c6_counterexample :
    (use envC6).renderCalls = 1 ∧
    (use envC6).prefetchCalls = 1 ∧
    (use envC6).sends ≠ [(200, "text/html", "")] := by
  refine ⟨rfl, rfl, by decide⟩

/-- C6 amended: for every production request for which the cache holds a
NON-EMPTY entry under `ssr:` + the original URL, the response is 200
`text/html` with the cached value verbatim, and no prefetch, render or
cache write happens. -/
theorem c6_cache_hit_amended (env : ReqEnv) (v : String)
    (hprod : env.isProd = true)
    (hget : env.cacheGet = Except.ok (some v))
    (hv : v.data.isEmpty = false) :
    (use env).sends = [(200, "text/html", v)] ∧
    (use env).outcome = Outcome.completed ∧
    (use env).renderCalls = 0 ∧
    (use env).prefetchCalls = 0 ∧
    (use env).cacheSetCalls = [] := by
  simp [use, hprod, hget, jsTruthy, hv]

/-- C6 witness: scenario `envC6hit` satisfies the hypotheses and the cached
page is served verbatim. -/
theorem c6_witness :
    envC6hit.isProd = true ∧
    envC6hit.cacheGet = Except.ok (some "<p>cached</p>") ∧
    "<p>cached</p>".data.isEmpty = false ∧
    ((use envC6hit).sends = [(200, "text/html", "<p>cached</p>")] ∧
      (use envC6hit).outcome = Outcome.completed ∧
      (use envC6hit).renderCalls = 0 ∧
      (use envC6hit).prefetchCalls = 0 ∧
      (use envC6hit).cacheSetCalls = []) :=
  ⟨rfl, rfl, rfl, c6_cache_hit_amended envC6hit "<p>cached</p>" rfl rfl rfl⟩

/-- C7: for every production request whose render succeeds, the cache set
operation is invoked exactly once, at key `ssr:` + the original URL, with
the assembled page (which equals the sent response body) and a TTL of
exactly 86 400 000 ms — whatever the outcome of the write itself. -/
theorem c7_prod_success_caches_once (env : ReqEnv) (t : String) (r : RenderResult)
    (hprod : env.isProd = true)
    (hget : ∃ c, env.cacheGet = Except.ok c ∧ jsTruthy c = false)
    (hbp : bypassPath env.path = false)
    (hman : env.manifestLoad = Except.ok ())
    (htpl : env.templateLoad = Except.ok t)
    (hmod : env.renderModuleLoad = Except.ok ())
    (hpre : env.prefetch = Except.ok ())
    (hren : env.renderResult = Except.ok r) :
    (use env).cacheSetCalls =
      [("ssr:" ++ env.originalUrl, assembleHtml t r, 86400000)] ∧
    (use env).sends = [(200, "text/html", assembleHtml t r)] := by
  obtain ⟨c, hc, htc⟩ := hget
  cases hset : env.cacheSet <;>
    simp [use, afterCache, tryBlock, innerTry, hprod, hc, htc, hbp, hman,
      htpl, hmod, hpre, hren, hset]

/-- C7 witness: scenario `envC7` satisfies the hypotheses; exactly one cache
write is recorded, with the sent body and the 24-hour TTL. -/
theorem c7_witness :
    envC7.isProd = true ∧ jsTruthy none = false ∧ bypassPath "/g" = false ∧
    ((use envC7).cacheSetCalls =
        [("ssr:" ++ envC7.originalUrl, assembleHtml tmpl8 rr8, 86400000)] ∧
      (use envC7).sends = [(200, "text/html", assembleHtml tmpl8 rr8)]) :=
  ⟨rfl, rfl, by decide,
    c7_prod_success_caches_once envC7 tmpl8 rr8 rfl ⟨none, rfl, rfl⟩
      (by decide) rfl rfl rfl rfl rfl⟩

/-- C8 counterexample: in the spec's concrete assembly scenario the output
still contains the marker text `</head>` (its own substitution rule
re-inserts it), so "contains no literal marker text from the six fixed
markers" is false.  The full assembled output is given explicitly. -/
theorem c8_counterexample :
    substrOf "</head>" (assembleHtml tmpl8 rr8) = true ∧
    assembleHtml tmpl8 rr8 =
      "<html ><head></head><body ><div>A</div><script>window.__PRELOAD_STATE__ = \x7b\"x\":1\x7d</script></body></html>" := by
  refine ⟨by decide, by decide⟩

/-- C8 amended: the assembled output contains `<div>A</div>` immediately
followed by the preload-state script, and none of the six markers' literal
text remains except `</head>`, which is necessarily re-inserted by its own
substitution (`</head>` → headTags + `</head>`). -/
theorem c8_assembly_amended :
    substrOf "<div>A</div><script>window.__PRELOAD_STATE__ = \x7b\"x\":1\x7d</script>"
        (assembleHtml tmpl8 rr8) = true ∧
    substrOf "<!--ssr-outlet-->" (assembleHtml tmpl8 rr8) = false ∧
    substrOf "<!--preload-state-->" (assembleHtml tmpl8 rr8) = false ∧
    substrOf "<!--preload-links-->" (assembleHtml tmpl8 rr8) = false ∧
    substrOf "<html>" (assembleHtml tmpl8 rr8) = false ∧
    substrOf "<body>" (assembleHtml tmpl8 rr8) = false := by
  refine ⟨by decide, by decide, by decide, by decide, by decide, by decide⟩

/-- C9 counterexample: `clearCache` does not report the removal count to its
caller — its TS signature is `Promise<void>`, so two stores from which 2
respectively 0 entries are removed yield the same returned value. -/
theorem c9_counterexample :
    (clearCache keysC9).removedKeys.length = 2 ∧
    (clearCache ["other:/c"]).removedKeys.length = 0 ∧
    (clearCache keysC9).retVal = (clearCache ["other:/c"]).retVal := by
  exact ⟨rfl, rfl, rfl⟩

/-- C9 amended: on the store `ssr:/a`, `ssr:/b`, `other:/c` the clearing
operation deletes exactly the two `ssr:`-prefixed keys and leaves
`other:/c`; the count 2 is reported via the console log, not the return
value; a failure of the key enumeration is re-raised to the caller. -/
theorem c9_clear_amended :
    (clearCache keysC9).removedKeys = ["ssr:/a", "ssr:/b"] ∧
    remainingKeys keysC9 = ["other:/c"] ∧
    (clearCache keysC9).log = ["SSR cache cleared: 2 keys removed"] ∧
    clearCacheE (Except.ok keysC9) (fun _ => Except.ok ()) =
      Except.ok (clearCache keysC9) ∧
    clearCacheE (Except.error ()) (fun _ => Except.ok ()) = Except.error () := by
  refine ⟨by decide, by decide, by decide, rfl, rfl⟩

/-- C10: on the CSR-degradation path taken when the render invocation
rejects, the 200 response body is the template with exactly the FIRST
occurrence of `<!--ssr-outlet-->` removed (no occurrence starts earlier;
if the marker is absent the template is sent unchanged), and every other
marker token present in the template remains verbatim in the body. -/
theorem c10_csr_replaces_only_first_outlet (env : ReqEnv) (t : String)
    (hget : env.isProd = true → ∃ c, env.cacheGet = Except.ok c ∧ jsTruthy c = false)
    (hbp : bypassPath env.path = false)
    (hman : env.manifestLoad = Except.ok ())
    (htpl : env.templateLoad = Except.ok t)
    (hmod : env.renderModuleLoad = Except.ok ())
    (hpre : env.prefetch = Except.ok ())
    (hren : env.renderResult = Except.error ()) :
    ∃ body : String,
      (use env).sends = [(200, "text/html", body)] ∧
      body = replaceFirst t "<!--ssr-outlet-->" "" ∧
      ("<!--ssr-outlet-->".data <:+: t.data →
        ∃ a b, t.data = a ++ "<!--ssr-outlet-->".data ++ b ∧
          body.data = a ++ b ∧
          ∀ a' b', t.data = a' ++ "<!--ssr-outlet-->".data ++ b' →
            a.length ≤ a'.length) ∧
      (¬ "<!--ssr-outlet-->".data <:+: t.data → body = t) ∧
      (∀ m ∈ (["<!--preload-links-->", "<!--preload-state-->", "<html>",
               "<body>", "</head>"] : List String),
        m.data <:+: t.data → m.data <:+: body.data) := by
  refine ⟨replaceFirst t "<!--ssr-outlet-->" "", ?_, rfl, ?_, ?_, ?_⟩
  · rw [use_render_reject_trace env t hget hbp hman htpl hmod hpre hren]
  · intro hocc
    exact replaceFirstL_first_split "<!--ssr-outlet-->".data (by decide) t.data hocc
  · intro habs
    show String.mk (replaceFirstL "<!--ssr-outlet-->".data "".data t.data) = t
    rw [show ("".data : List Char) = [] from rfl,
      replaceFirstL_id_of_absent "<!--ssr-outlet-->".data t.data habs]
  · intro m hm hocc
    have hsep : sepFrom m.data "<!--ssr-outlet-->".data := by
      fin_cases hm <;> decide
    exact replaceFirstL_keeps m.data "<!--ssr-outlet-->".data hsep t.data hocc

/-- C10 witness: scenario `envC10`, whose template holds two outlet
occurrences and all other markers, satisfies the hypotheses. -/
theorem c10_witness :
    bypassPath "/j" = false ∧ jsTruthy none = false ∧
    (∃ body : String,
      (use envC10).sends = [(200, "text/html", body)] ∧
      body = replaceFirst tmpl10 "<!--ssr-outlet-->" "" ∧
      ("<!--ssr-outlet-->".data <:+: tmpl10.data →
        ∃ a b, tmpl10.data = a ++ "<!--ssr-outlet-->".data ++ b ∧
          body.data = a ++ b ∧
          ∀ a' b', tmpl10.data = a' ++ "<!--ssr-outlet-->".data ++ b' →
            a.length ≤ a'.length) ∧
      (¬ "<!--ssr-outlet-->".data <:+: tmpl10.data → body = tmpl10) ∧
      (∀ m ∈ (["<!--preload-links-->", "<!--preload-state-->", "<html>",
               "<body>", "</head>"] : List String),
        m.data <:+: tmpl10.data → m.data <:+: body.data)) :=
  ⟨by decide, rfl,
    c10_csr_replaces_only_first_outlet envC10 tmpl10
      (fun _ => ⟨none, rfl, rfl⟩) (by decide) rfl rfl rfl rfl rfl⟩

end Ssr
